import Mathlib

/-!
Verification of the bingo-card generator (src/App.tsx and
src/components/BingoCard.tsx).

The TypeScript sources are shallowly embedded as Lean functions.  JavaScript
numbers are modelled as natural numbers: every arithmetic step of
getCombinations produces an exact integer (the running product after i steps
is the binomial coefficient C(n, i), and each division is exact), so the
exact model agrees with the floating-point source wherever intermediate
values stay below 2 ^ 53, which covers the ranges the application uses.
Randomness (Math.random) is modelled by quantifying over an arbitrary
function supplying the index drawn at each step of the Fisher-Yates loop.
React state updates are modelled by explicit state passing on a record of
the component state fields.
-/

namespace App

/-- Loop body of getCombinations: res starts at 1 and for i = 1 .. r performs
res := res * (n - i + 1) / i, as in App.tsx lines 38-41.  In the source the
loop only runs with r ≤ n / 2, so n - i + 1 never underflows. -/
def combLoop (n : Nat) : Nat → Nat
  | 0 => 1
  | r + 1 => combLoop n r * (n - (r + 1) + 1) / (r + 1)

/-- Embedding of getCombinations (App.tsx lines 34-43).  The Math.round of
the source is the identity here because every quotient is an exact integer. -/
def getCombinations (n r : Nat) : Nat :=
  if n < r then 0
  else if r = 0 ∨ r = n then 1
  else combLoop n (if n / 2 < r then n - r else r)

/-- The incremental product loop computes binomial coefficients exactly. -/
lemma combLoop_eq_choose (n : Nat) : ∀ r, r ≤ n → combLoop n r = Nat.choose n r := by
  intro r
  induction r with
  | zero => intro _; simp [combLoop]
  | succ k ih =>
    intro h
    have hk : k ≤ n := Nat.le_of_succ_le h
    have hn : n - (k + 1) + 1 = n - k := by omega
    rw [combLoop, ih hk, hn, ← Nat.choose_succ_right_eq,
      Nat.mul_div_cancel _ (Nat.succ_pos k)]

/-- getCombinations agrees with the mathematical binomial coefficient. -/
lemma getCombinations_eq_choose (n r : Nat) : getCombinations n r = Nat.choose n r := by
  unfold getCombinations
  split_ifs with h1 h2 h3
  · exact (Nat.choose_eq_zero_of_lt h1).symm
  · rcases h2 with rfl | rfl
    · simp
    · simp [Nat.choose_self]
  · rw [combLoop_eq_choose n (n - r) (Nat.sub_le n r),
      Nat.choose_symm (Nat.le_of_not_lt h1)]
  · exact combLoop_eq_choose n r (Nat.le_of_not_lt h1)

/-- Embedding of the while-loop of the pool-size effect (App.tsx lines
53-60).  The first component is the final value of calculatedMinPool, the
second lists every value at which getCombinations was evaluated.  The fuel
argument only serves to express the loop as structural recursion; 102 units
are enough for every reachable iteration count. -/
def minPoolLoop (cc k : Nat) : Nat → Nat → Nat × List Nat
  | 0, m => (m, [])
  | fuel + 1, m =>
    if cc ≤ getCombinations m k then (m, [m])
    else if 100 < m + 1 then (m + 1, [m])
    else ((minPoolLoop cc k fuel (m + 1)).1, m :: (minPoolLoop cc k fuel (m + 1)).2)

/-- Final value of the calculatedMinPool variable of the pool-size effect for
card count cc and itemsPerCard k (App.tsx lines 50-60). -/
def calculatedMinPool (cc k : Nat) : Nat :=
  (minPoolLoop cc k 102 k).1

/-- Pool sizes at which the search evaluates getCombinations. -/
def minPoolConsidered (cc k : Nat) : List Nat :=
  (minPoolLoop cc k 102 k).2

/-- Embedding of suggestedMin = Math.max(calculatedMinPool, itemsPerCard + 1)
(App.tsx line 61); this value is stored in minPoolSize and poolSize. -/
def suggestedMinPool (cc k : Nat) : Nat :=
  max (calculatedMinPool cc k) (k + 1)

/-- If the loop result is at most 100 then the loop stopped because the
combination count reached the card count. -/
lemma minPoolLoop_ge (cc k : Nat) : ∀ fuel m, 101 - m < fuel →
    (minPoolLoop cc k fuel m).1 ≤ 100 →
    cc ≤ getCombinations ((minPoolLoop cc k fuel m).1) k := by
  intro fuel
  induction fuel with
  | zero => intro m h; omega
  | succ f ih =>
    intro m hf hle
    rw [minPoolLoop] at hle ⊢
    split_ifs at hle ⊢ with h1 h2
    · exact h1
    · omega
    · exact ih (m + 1) (by omega) hle

/-- Loop invariant: starting at m ≤ 100, every evaluated pool size stays at
most 100 and the result is at most 101. -/
lemma minPoolLoop_bound (cc k : Nat) : ∀ fuel m, m ≤ 100 →
    (minPoolLoop cc k fuel m).1 ≤ 101 ∧ ∀ x ∈ (minPoolLoop cc k fuel m).2, x ≤ 100 := by
  intro fuel
  induction fuel with
  | zero =>
    intro m hm
    refine ⟨by simpa [minPoolLoop] using by omega, ?_⟩
    simp [minPoolLoop]
  | succ f ih =>
    intro m hm
    rw [minPoolLoop]
    split_ifs with h1 h2
    · exact ⟨by omega, by simpa using hm⟩
    · exact ⟨by omega, by simpa using hm⟩
    · refine ⟨(ih (m + 1) (by omega)).1, ?_⟩
      intro x hx
      rcases List.mem_cons.mp hx with rfl | hx
      · exact hm
      · exact (ih (m + 1) (by omega)).2 x hx

end App

/-- Claim C1: whenever the pool-size search was not capped at its size
ceiling (its result is at most 100), the computed minimum pool size m
satisfies C(m, k) ≥ requested card count; the same holds for the suggested
minimum actually stored in the poolSize state. -/
theorem minPool_satisfies_choose_bound (cc k : Nat)
    (h : App.calculatedMinPool cc k ≤ 100) :
    cc ≤ Nat.choose (App.calculatedMinPool cc k) k ∧
      cc ≤ Nat.choose (App.suggestedMinPool cc k) k := by
  have hfuel : 101 - k < 102 := by omega
  have hmain := App.minPoolLoop_ge cc k 102 k hfuel h
  rw [App.getCombinations_eq_choose] at hmain
  refine ⟨hmain, le_trans hmain ?_⟩
  exact Nat.choose_le_choose k (le_max_left _ _)

/-- Witness for C1 at the default configuration: 30 cards, 3 x 3 grid. -/
theorem minPool_satisfies_choose_bound_witness :
    App.calculatedMinPool 30 9 ≤ 100 ∧
      (30 ≤ Nat.choose (App.calculatedMinPool 30 9) 9 ∧
        30 ≤ Nat.choose (App.suggestedMinPool 30 9) 9) :=
  ⟨by decide, minPool_satisfies_choose_bound 30 9 (by decide)⟩

namespace App

/-- Modelled from the spec: the BingoItem record of types.ts (the file is
not under src/): an AI-generated question/answer pair with fields id,
problem and answer, immutable once produced. -/
structure BingoItem where
  id : Nat
  problem : String
  answer : String
  deriving DecidableEq

/-- Modelled from the spec: one cell of a card, either a pool item or the
free-space marker GRATIS (the union type of types.ts, not under src/). -/
inductive Cell where
  | item (it : BingoItem)
  | gratis
  deriving DecidableEq

/-- Modelled from the spec: the BingoCardData record of types.ts (not under
src/): a card id together with the ordered cell sequence. -/
structure BingoCardData where
  id : Nat
  cells : List Cell
  deriving DecidableEq

/-- The Cell.item constructor is injective. -/
lemma cell_item_injective : Function.Injective Cell.item := by
  intro a b h
  injection h

/-- Swap of two array positions, as the destructuring assignment of
shuffleArray (App.tsx line 73).  In the source both indices are always in
range; out-of-range indices leave the list unchanged. -/
def listSwap {α : Type} (l : List α) (i j : Nat) : List α :=
  match l[i]?, l[j]? with
  | some a, some b => (l.set i b).set j a
  | _, _ => l

/-- Replacing position m (holding b) by x and consing b in front permutes
consing x in front. -/
lemma cons_set_perm {α : Type} (x : α) : ∀ (m : Nat) (xs : List α) (b : α),
    xs[m]? = some b → (b :: xs.set m x).Perm (x :: xs) := by
  intro m
  induction m with
  | zero =>
    intro xs b h
    cases xs with
    | nil => simp at h
    | cons y t =>
      simp only [List.getElem?_cons_zero, Option.some.injEq] at h
      subst h
      simpa using List.Perm.swap x y t
  | succ m ih =>
    intro xs b h
    cases xs with
    | nil => simp at h
    | cons y t =>
      simp only [List.getElem?_cons_succ] at h
      simp only [List.set_cons_succ]
      exact ((List.Perm.swap y b (t.set m x)).trans
        ((ih t b h).cons y)).trans (List.Perm.swap x y t)

/-- Writing b at position i (holding a) and a at position j (holding b)
permutes the original list. -/
lemma set_set_perm {α : Type} : ∀ (i : Nat) (l : List α) (j : Nat) (a b : α),
    l[i]? = some a → l[j]? = some b → ((l.set i b).set j a).Perm l := by
  intro i
  induction i with
  | zero =>
    intro l j a b ha hb
    cases l with
    | nil => simp at ha
    | cons x t =>
      simp only [List.getElem?_cons_zero, Option.some.injEq] at ha
      subst ha
      cases j with
      | zero =>
        simp only [List.getElem?_cons_zero, Option.some.injEq] at hb
        subst hb
        simp
      | succ m =>
        simp only [List.getElem?_cons_succ] at hb
        simp only [List.set_cons_zero, List.set_cons_succ]
        exact cons_set_perm x m t b hb
  | succ n ih =>
    intro l j a b ha hb
    cases l with
    | nil => simp at ha
    | cons x t =>
      simp only [List.getElem?_cons_succ] at ha
      cases j with
      | zero =>
        simp only [List.getElem?_cons_zero, Option.some.injEq] at hb
        subst hb
        simp only [List.set_cons_succ, List.set_cons_zero]
        exact cons_set_perm x n t a ha
      | succ m =>
        simp only [List.getElem?_cons_succ] at hb
        simp only [List.set_cons_succ]
        exact (ih t m a b ha hb).cons x

/-- A single swap step permutes the list. -/
lemma listSwap_perm {α : Type} (l : List α) (i j : Nat) : (listSwap l i j).Perm l := by
  unfold listSwap
  cases ha : l[i]? with
  | none => simp [ha]
  | some a =>
    cases hb : l[j]? with
    | none => simp [ha, hb]
    | some b =>
      simp only [ha, hb]
      exact set_set_perm i l j a b ha hb

/-- Embedding of the Fisher-Yates loop of shuffleArray (App.tsx lines
71-74): the counter runs i = n, n-1, ..., 1, swapping position i with
position rand i, where rand i models Math.floor(Math.random() * (i + 1)). -/
def shuffleStep {α : Type} (rand : Nat → Nat) : List α → Nat → List α
  | l, 0 => l
  | l, i + 1 => shuffleStep rand (listSwap l (i + 1) (rand (i + 1))) i

/-- Embedding of shuffleArray (App.tsx lines 69-76): the loop starts at
index length - 1 and stops before index 0. -/
def shuffleArray {α : Type} (rand : Nat → Nat) (l : List α) : List α :=
  shuffleStep rand l (l.length - 1)

/-- The shuffle loop permutes its input, whatever indices are drawn. -/
lemma shuffleStep_perm {α : Type} (rand : Nat → Nat) :
    ∀ (n : Nat) (l : List α), (shuffleStep rand l n).Perm l := by
  intro n
  induction n with
  | zero => intro l; exact List.Perm.refl l
  | succ i ih =>
    intro l
    exact (ih _).trans (listSwap_perm l (i + 1) (rand (i + 1)))

/-- shuffleArray returns a permutation of its input. -/
lemma shuffleArray_perm {α : Type} (rand : Nat → Nat) (l : List α) :
    (shuffleArray rand l).Perm l :=
  shuffleStep_perm rand _ l

/-- shuffleArray preserves length. -/
lemma shuffleArray_length {α : Type} (rand : Nat → Nat) (l : List α) :
    (shuffleArray rand l).length = l.length :=
  (shuffleArray_perm rand l).length_eq

/-- Embedding of the card-building loop of generateCards (App.tsx lines
78-93).  rem counts the remaining iterations and i is the card id (the
source runs i = 1 .. count).  A none result models the early return that
leaves the cards state untouched; some models the final setCards call. -/
def genLoop (rand : Nat → Nat → Nat) (itemsNeeded : Nat) (pool : List BingoItem) :
    Nat → Nat → Option (List BingoCardData)
  | 0, _ => some []
  | rem + 1, i =>
    if (shuffleArray (rand i) pool).length < itemsNeeded then none
    else
      match genLoop rand itemsNeeded pool rem (i + 1) with
      | none => none
      | some rest =>
          some (⟨i, ((shuffleArray (rand i) pool).take itemsNeeded).map Cell.item⟩ :: rest)

/-- Embedding of generateCards (App.tsx lines 78-93), with gridRows and
gridCols passed explicitly instead of read from the React closure and one
random-index function per card id. -/
def generateCards (rand : Nat → Nat → Nat) (gridRows gridCols : Nat)
    (pool : List BingoItem) (count : Nat) : Option (List BingoCardData) :=
  genLoop rand (gridRows * gridCols) pool count 1

/-- When the pool is large enough the loop always succeeds, and every card
it builds has itemsNeeded cells, all items of the pool, without duplicates
whenever the pool has none. -/
lemma genLoop_spec (rand : Nat → Nat → Nat) (k : Nat) (pool : List BingoItem)
    (hk : k ≤ pool.length) : ∀ (rem i : Nat), ∃ cards,
    genLoop rand k pool rem i = some cards ∧
      ∀ card ∈ cards, card.cells.length = k ∧
        (∀ cell ∈ card.cells, ∃ it ∈ pool, cell = Cell.item it) ∧
        (pool.Nodup → card.cells.Nodup) := by
  intro rem
  induction rem with
  | zero => intro i; exact ⟨[], rfl, by simp⟩
  | succ r ih =>
    intro i
    obtain ⟨rest, hrest, hprops⟩ := ih (i + 1)
    have hlen : (shuffleArray (rand i) pool).length = pool.length :=
      shuffleArray_length _ _
    have hnot : ¬ (shuffleArray (rand i) pool).length < k := by omega
    refine ⟨⟨i, ((shuffleArray (rand i) pool).take k).map Cell.item⟩ :: rest, ?_, ?_⟩
    · rw [genLoop, if_neg hnot, hrest]
    · intro card hcard
      rcases List.mem_cons.mp hcard with rfl | hcard
      · refine ⟨?_, ?_, ?_⟩
        · simp only [List.length_map, List.length_take]
          omega
        · intro cell hcell
          obtain ⟨it, hit, rfl⟩ := List.mem_map.mp hcell
          exact ⟨it, ((shuffleArray_perm (rand i) pool).mem_iff).mp
            (List.mem_of_mem_take hit), rfl⟩
        · intro hnd
          have h1 : (shuffleArray (rand i) pool).Nodup :=
            ((shuffleArray_perm (rand i) pool).nodup_iff).mpr hnd
          have h2 : ((shuffleArray (rand i) pool).take k).Nodup :=
            List.Nodup.sublist (List.take_sublist k _) h1
          exact List.Nodup.map cell_item_injective h2
      · exact hprops card hcard

end App

/-- Concrete nine-item pool used by witnesses for a 3 x 3 grid. -/
def pool9 : List App.BingoItem :=
  [⟨1, "", ""⟩, ⟨2, "", ""⟩, ⟨3, "", ""⟩, ⟨4, "", ""⟩, ⟨5, "", ""⟩,
    ⟨6, "", ""⟩, ⟨7, "", ""⟩, ⟨8, "", ""⟩, ⟨9, "", ""⟩]

/-- Concrete eleven-item pool, the suggested minimum for 30 cards on 3 x 3. -/
def pool11 : List App.BingoItem :=
  [⟨1, "", ""⟩, ⟨2, "", ""⟩, ⟨3, "", ""⟩, ⟨4, "", ""⟩, ⟨5, "", ""⟩,
    ⟨6, "", ""⟩, ⟨7, "", ""⟩, ⟨8, "", ""⟩, ⟨9, "", ""⟩, ⟨10, "", ""⟩,
    ⟨11, "", ""⟩]

/-- Concrete thirteen-item pool matching the default poolSize state of 13. -/
def pool13 : List App.BingoItem :=
  [⟨1, "", ""⟩, ⟨2, "", ""⟩, ⟨3, "", ""⟩, ⟨4, "", ""⟩, ⟨5, "", ""⟩,
    ⟨6, "", ""⟩, ⟨7, "", ""⟩, ⟨8, "", ""⟩, ⟨9, "", ""⟩, ⟨10, "", ""⟩,
    ⟨11, "", ""⟩, ⟨12, "", ""⟩, ⟨13, "", ""⟩]

/-- Claim C2: for every pool of pairwise-distinct items holding at least
rows times cols items and every card count, generateCards succeeds and each
produced card has exactly rows times cols cells, every cell an item of the
pool (never the free-space marker), with no item repeated inside a card. -/
theorem generateCards_cards_valid (rand : Nat → Nat → Nat) (gridRows gridCols : Nat)
    (pool : List App.BingoItem) (count : Nat) (hnd : pool.Nodup)
    (hlen : gridRows * gridCols ≤ pool.length) :
    ∃ cards, App.generateCards rand gridRows gridCols pool count = some cards ∧
      ∀ card ∈ cards, card.cells.length = gridRows * gridCols ∧
        card.cells.Nodup ∧
        ∀ cell ∈ card.cells, ∃ it ∈ pool, cell = App.Cell.item it := by
  obtain ⟨cards, hc, hp⟩ := App.genLoop_spec rand _ pool hlen count 1
  exact ⟨cards, hc, fun card hcard =>
    ⟨(hp card hcard).1, (hp card hcard).2.2 hnd, (hp card hcard).2.1⟩⟩

/-- Witness for C2: two cards from the distinct nine-item pool on a 3 x 3
grid, with the random draw that always picks index 0. -/
theorem generateCards_cards_valid_witness :
    pool9.Nodup ∧ 3 * 3 ≤ pool9.length ∧
      (∃ cards, App.generateCards (fun _ _ => 0) 3 3 pool9 2 = some cards ∧
        ∀ card ∈ cards, card.cells.length = 3 * 3 ∧ card.cells.Nodup ∧
          ∀ cell ∈ card.cells, ∃ it ∈ pool9, cell = App.Cell.item it) :=
  ⟨by decide, by decide,
    generateCards_cards_valid (fun _ _ => 0) 3 3 pool9 2 (by decide) (by decide)⟩

/-- Counterexample to claim C5 as stated: with a requested card count of 0
the loop body never runs, so even for a pool smaller than the cells per
card the function does not return early; it reaches setCards and installs
the empty card set, changing the cards state instead of leaving it
untouched, and logs nothing. -/
theorem generateCards_count_zero_cex :
    ([] : List App.BingoItem).length < 3 * 3 ∧
      App.generateCards (fun _ _ => 0) 3 3 [] 0 = some [] := by
  exact ⟨by decide, rfl⟩

/-- Claim C5 (amended): for every pool smaller than rows times cols and
every card count of at least one, generateCards hits the insufficient-pool
branch on the first card and returns without installing any card set. -/
theorem generateCards_insufficient_pool (rand : Nat → Nat → Nat)
    (gridRows gridCols : Nat) (pool : List App.BingoItem) (count : Nat)
    (hlen : pool.length < gridRows * gridCols) (hcount : 1 ≤ count) :
    App.generateCards rand gridRows gridCols pool count = none := by
  obtain ⟨c, rfl⟩ : ∃ c, count = c + 1 := ⟨count - 1, by omega⟩
  have hsh : (App.shuffleArray (rand 1) pool).length < gridRows * gridCols := by
    rw [App.shuffleArray_length]; exact hlen
  unfold App.generateCards
  rw [App.genLoop, if_pos hsh]

/-- Witness for the amended C5: empty pool, 3 x 3 grid, one card. -/
theorem generateCards_insufficient_pool_witness :
    ([] : List App.BingoItem).length < 3 * 3 ∧ 1 ≤ 1 ∧
      App.generateCards (fun _ _ => 0) 3 3 [] 1 = none :=
  ⟨by decide, by decide,
    generateCards_insufficient_pool (fun _ _ => 0) 3 3 [] 1 (by decide) (by decide)⟩

/-- Counterexample to claim C7 as stated: for nine cells per card and a
requested card count of 2000000000000 (larger than C(100, 9)), the search
is capped, yet the computed minimum pool size is 101, not at most 100: the
loop increments past the ceiling before breaking. -/
theorem minPoolSearch_cap_cex :
    App.calculatedMinPool 2000000000000 9 = 101 ∧
      ¬ App.calculatedMinPool 2000000000000 9 ≤ 100 := by
  exact ⟨by decide, by decide⟩

/-- Claim C7 (amended): for every card count and every itemsPerCard of at
most 100, the pool sizes at which the search evaluates getCombinations
never exceed 100, and the computed minimum pool size is at most 101 (it is
exactly 101 whenever the cap is hit). -/
theorem minPoolSearch_cap_behavior (cc k : Nat) (hk : k ≤ 100) :
    (∀ m ∈ App.minPoolConsidered cc k, m ≤ 100) ∧
      App.calculatedMinPool cc k ≤ 101 :=
  ⟨(App.minPoolLoop_bound cc k 102 k hk).2, (App.minPoolLoop_bound cc k 102 k hk).1⟩

/-- Witness for the amended C7 at 30 cards and nine cells per card. -/
theorem minPoolSearch_cap_behavior_witness :
    9 ≤ 100 ∧ ((∀ m ∈ App.minPoolConsidered 30 9, m ≤ 100) ∧
      App.calculatedMinPool 30 9 ≤ 101) :=
  ⟨by decide, minPoolSearch_cap_behavior 30 9 (by decide)⟩

/-- Claim C8: in the default configuration (3 x 3 grid, 30 cards), pool
size 13 satisfies the minimum-pool requirement, getCombinations(13, 9) =
715 ≥ 30, and every card generated from a 13-item pool of distinct items
has 9 unique items. -/
theorem default_config_pool13 :
    App.getCombinations 13 9 = 715 ∧ 30 ≤ App.getCombinations 13 9 ∧
      ∀ (rand : Nat → Nat → Nat) (pool : List App.BingoItem) (count : Nat),
        pool.Nodup → pool.length = 13 →
        ∃ cards, App.generateCards rand 3 3 pool count = some cards ∧
          ∀ card ∈ cards, card.cells.length = 9 ∧ card.cells.Nodup ∧
            ∀ cell ∈ card.cells, ∃ it ∈ pool, cell = App.Cell.item it := by
  refine ⟨by decide, by decide, ?_⟩
  intro rand pool count hnd hlen
  obtain ⟨cards, hc, hp⟩ := App.genLoop_spec rand 9 pool (by omega) count 1
  exact ⟨cards, hc, fun card hcard =>
    ⟨(hp card hcard).1, (hp card hcard).2.2 hnd, (hp card hcard).2.1⟩⟩

/-- Witness for C8: one card from the concrete thirteen-item pool. -/
theorem default_config_pool13_witness :
    pool13.Nodup ∧ pool13.length = 13 ∧
      (∃ cards, App.generateCards (fun _ _ => 0) 3 3 pool13 1 = some cards ∧
        ∀ card ∈ cards, card.cells.length = 9 ∧ card.cells.Nodup ∧
          ∀ cell ∈ card.cells, ∃ it ∈ pool13, cell = App.Cell.item it) :=
  ⟨by decide, by decide,
    default_config_pool13.2.2 (fun _ _ => 0) pool13 1 (by decide) (by decide)⟩

/-- Claim C10: the suggested minimum pool size is strictly greater than the
cells per card, so a pool of exactly that size can never trigger the
insufficient-pool failure branch of generateCards. -/
theorem suggestedMinPool_avoids_failure (cc gridRows gridCols : Nat)
    (rand : Nat → Nat → Nat) (pool : List App.BingoItem) (count : Nat)
    (hpool : pool.length = App.suggestedMinPool cc (gridRows * gridCols)) :
    gridRows * gridCols + 1 ≤ App.suggestedMinPool cc (gridRows * gridCols) ∧
      App.generateCards rand gridRows gridCols pool count ≠ none := by
  have h1 : gridRows * gridCols + 1 ≤ App.suggestedMinPool cc (gridRows * gridCols) :=
    le_max_right _ _
  refine ⟨h1, ?_⟩
  obtain ⟨cards, hc, -⟩ :=
    App.genLoop_spec rand (gridRows * gridCols) pool (by omega) count 1
  unfold App.generateCards
  rw [hc]
  simp

/-- Witness for C10 at 30 cards on a 3 x 3 grid, pool of the suggested
minimum size 11. -/
theorem suggestedMinPool_avoids_failure_witness :
    pool11.length = App.suggestedMinPool 30 (3 * 3) ∧
      (3 * 3 + 1 ≤ App.suggestedMinPool 30 (3 * 3) ∧
        App.generateCards (fun _ _ => 0) 3 3 pool11 1 ≠ none) :=
  ⟨by decide,
    suggestedMinPool_avoids_failure 30 3 3 (fun _ _ => 0) pool11 1 (by decide)⟩

namespace App

/-- Character class of the first regex of shouldRenderAsText (App.tsx line
397), written by code point: backslash (92), equals sign (61), opening
brace (123), closing brace (125), caret (94) and underscore (95). -/
def isMarkupChar (c : Char) : Bool :=
  c.toNat = 92 || c.toNat = 61 || c.toNat = 123 || c.toNat = 125 ||
    c.toNat = 94 || c.toNat = 95

/-- Decimal digit class of the second regex (code points 48 to 57). -/
def isDigitChar (c : Char) : Bool :=
  48 ≤ c.toNat && c.toNat ≤ 57

/-- JavaScript regex whitespace class: tab through carriage return, space,
no-break space, ogham space mark, en quad through hair space, line and
paragraph separators, narrow no-break space, medium mathematical space,
ideographic space, and the byte-order mark. -/
def isJsWhitespace (c : Char) : Bool :=
  (9 ≤ c.toNat && c.toNat ≤ 13) || c.toNat = 32 || c.toNat = 160 ||
    c.toNat = 5760 || (8192 ≤ c.toNat && c.toNat ≤ 8202) || c.toNat = 8232 ||
    c.toNat = 8233 || c.toNat = 8239 || c.toNat = 8287 || c.toNat = 12288 ||
    c.toNat = 65279

/-- Character class of the final regex of shouldRenderAsText (App.tsx line
400): ASCII letters, Latin-1 letters at code points 192 to 255, whitespace,
and the punctuation marks period, comma, question mark, exclamation mark,
apostrophe, double quote and hyphen. -/
def isTextChar (c : Char) : Bool :=
  (97 ≤ c.toNat && c.toNat ≤ 122) || (65 ≤ c.toNat && c.toNat ≤ 90) ||
    (192 ≤ c.toNat && c.toNat ≤ 255) || isJsWhitespace c ||
    c.toNat = 46 || c.toNat = 44 || c.toNat = 63 || c.toNat = 33 ||
    c.toNat = 39 || c.toNat = 34 || c.toNat = 45

/-- Embedding of shouldRenderAsText (App.tsx lines 395-401).  The string is
viewed as its character sequence; the falsy test on the string is the
zero-length test, and the length checks count characters. -/
def shouldRenderAsText (content : String) : Bool :=
  if content.data.length = 0 then true
  else if content.data.any isMarkupChar then false
  else if content.data.any isDigitChar then false
  else if content.data.length ≤ 2 then false
  else content.data.all isTextChar

end App

namespace BingoCard

/-- Copy of the markup-control character class kept in BingoCard.tsx
(line 30), character for character the same class as in App.tsx. -/
def isMarkupChar (c : Char) : Bool :=
  c.toNat = 92 || c.toNat = 61 || c.toNat = 123 || c.toNat = 125 ||
    c.toNat = 94 || c.toNat = 95

/-- Copy of the digit class of BingoCard.tsx (line 32). -/
def isDigitChar (c : Char) : Bool :=
  48 ≤ c.toNat && c.toNat ≤ 57

/-- Copy of the JavaScript whitespace class for BingoCard.tsx. -/
def isJsWhitespace (c : Char) : Bool :=
  (9 ≤ c.toNat && c.toNat ≤ 13) || c.toNat = 32 || c.toNat = 160 ||
    c.toNat = 5760 || (8192 ≤ c.toNat && c.toNat ≤ 8202) || c.toNat = 8232 ||
    c.toNat = 8233 || c.toNat = 8239 || c.toNat = 8287 || c.toNat = 12288 ||
    c.toNat = 65279

/-- Copy of the text character class of BingoCard.tsx (line 36). -/
def isTextChar (c : Char) : Bool :=
  (97 ≤ c.toNat && c.toNat ≤ 122) || (65 ≤ c.toNat && c.toNat ≤ 90) ||
    (192 ≤ c.toNat && c.toNat ≤ 255) || isJsWhitespace c ||
    c.toNat = 46 || c.toNat = 44 || c.toNat = 63 || c.toNat = 33 ||
    c.toNat = 39 || c.toNat = 34 || c.toNat = 45

/-- Embedding of the shouldRenderAsText copy in BingoCard.tsx (lines
27-37), translated independently from that file. -/
def shouldRenderAsText (content : String) : Bool :=
  if content.data.length = 0 then true
  else if content.data.any isMarkupChar then false
  else if content.data.any isDigitChar then false
  else if content.data.length ≤ 2 then false
  else content.data.all isTextChar

end BingoCard

/-- Claim C3: the classification heuristic is a pure function of the input
string, and the copy in App.tsx and the copy in BingoCard.tsx are
extensionally equal: every input string gets the same classification in the
calling list and in the card view. -/
theorem shouldRenderAsText_copies_agree (s : String) :
    App.shouldRenderAsText s = BingoCard.shouldRenderAsText s := rfl

/-- Text-class characters are never markup-control characters or digits. -/
lemma isTextChar_class (c : Char) (h : App.isTextChar c = true) :
    ¬ App.isMarkupChar c = true ∧ ¬ App.isDigitChar c = true := by
  unfold App.isTextChar App.isJsWhitespace at h
  unfold App.isMarkupChar App.isDigitChar
  simp only [Bool.or_eq_true, Bool.and_eq_true, decide_eq_true_eq] at h ⊢
  omega

/-- Counterexample to claim C4 as stated: the empty string has length at
most 2 but is classified as text (the falsy guard fires before the length
rule), and the all-alphabetic string ab is classified as math (the length
rule fires before the alphabetic rule), contradicting both the short-string
clause and the alphabetic clause of the claim. -/
theorem shouldRenderAsText_heuristic_cex :
    (String.length "" ≤ 2 ∧ App.shouldRenderAsText "" = true) ∧
      ((∀ c ∈ "ab".data, App.isTextChar c = true) ∧
        App.shouldRenderAsText "ab" = false) :=
  ⟨⟨by decide, by decide⟩, ⟨by decide, by decide⟩⟩

/-- Claim C4 (amended): a string containing a markup-control character or a
digit is classified as math; a nonempty string of at most 2 characters is
classified as math; a string of at least 3 characters consisting only of
alphabetic characters, whitespace and the allowed punctuation is classified
as text.  (The empty string is classified as text by the initial guard.) -/
theorem shouldRenderAsText_heuristic (s : String) :
    (s.data.any App.isMarkupChar = true ∨ s.data.any App.isDigitChar = true →
      App.shouldRenderAsText s = false) ∧
    (1 ≤ s.data.length → s.data.length ≤ 2 → App.shouldRenderAsText s = false) ∧
    (3 ≤ s.data.length → s.data.all App.isTextChar = true →
      App.shouldRenderAsText s = true) := by
  refine ⟨?_, ?_, ?_⟩
  · intro h
    unfold App.shouldRenderAsText
    have hne : ¬ s.data.length = 0 := by
      intro h0
      rw [List.length_eq_zero] at h0
      rcases h with h | h <;> simp [h0] at h
    rw [if_neg hne]
    rcases h with h | h
    · rw [if_pos h]
    · by_cases hm : s.data.any App.isMarkupChar
      · rw [if_pos hm]
      · rw [if_neg hm, if_pos h]
  · intro h1 h2
    unfold App.shouldRenderAsText
    rw [if_neg (by omega)]
    by_cases hm : s.data.any App.isMarkupChar
    · rw [if_pos hm]
    · rw [if_neg hm]
      by_cases hd : s.data.any App.isDigitChar
      · rw [if_pos hd]
      · rw [if_neg hd, if_pos h2]
  · intro h3 hall
    have hm : ¬ s.data.any App.isMarkupChar = true := by
      rw [List.any_eq_true]
      rintro ⟨c, hc, hmc⟩
      exact (isTextChar_class c (List.all_eq_true.mp hall c hc)).1 hmc
    have hd : ¬ s.data.any App.isDigitChar = true := by
      rw [List.any_eq_true]
      rintro ⟨c, hc, hdc⟩
      exact (isTextChar_class c (List.all_eq_true.mp hall c hc)).2 hdc
    unfold App.shouldRenderAsText
    rw [if_neg (by omega), if_neg hm, if_neg hd, if_neg (by omega)]
    exact hall

/-- Witness for the amended C4 on three concrete strings: one with a markup
character, one short alphabetic string, one long alphabetic string. -/
theorem shouldRenderAsText_heuristic_witness :
    App.shouldRenderAsText "x=y" = false ∧
      App.shouldRenderAsText "ab" = false ∧
      App.shouldRenderAsText "abc" = true :=
  ⟨(shouldRenderAsText_heuristic "x=y").1 (Or.inl (by decide)),
    (shouldRenderAsText_heuristic "ab").2.1 (by decide) (by decide),
    (shouldRenderAsText_heuristic "abc").2.2 (by decide) (by decide)⟩

namespace App

/-- Status enumeration of the generator UI (GeneratorStatus of types.ts,
modelled from the spec and from its uses in App.tsx). -/
inductive GeneratorStatus where
  | IDLE
  | DETECTING
  | CONFIRMING
  | GENERATING
  | SUCCESS
  | ERROR
  deriving DecidableEq

/-- Modelled from the spec: SubjectContext of types.ts (not under src/):
the detected subject name and the math flag. -/
structure SubjectContext where
  subject : String
  isMath : Bool
  deriving DecidableEq

/-- Component state of App: the useState fields of App.tsx (lines 9-26)
that the modelled handlers read or write. -/
structure AppState where
  status : GeneratorStatus
  items : List BingoItem
  cards : List BingoCardData
  subjectContext : SubjectContext
  tempSubjectName : String
  gridRows : Nat
  gridCols : Nat
  cardCount : Nat
  poolSize : Nat
  minPoolSize : Nat
  topic : String
  selectedImage : Option String
  deriving DecidableEq

/-- Effect of a generateCards call on the component state: a some result
models the setCards call installing the new cards, none models the early
return that leaves the state unchanged (App.tsx lines 78-93). -/
def applyGenerateCards (rand : Nat → Nat → Nat) (st : AppState)
    (pool : List BingoItem) (count : Nat) : AppState :=
  match generateCards rand st.gridRows st.gridCols pool count with
  | some cs => { st with cards := cs }
  | none => st

/-- Result of the reshuffle handler together with a flag recording whether
any AI-service function was invoked; the body of the source handler
contains no such call, so the flag is constantly false. -/
structure RegenResult where
  state : AppState
  aiCalled : Bool
  deriving DecidableEq

/-- Embedding of handleRegenerateCardsOnly (App.tsx lines 131-135): when
the item pool is non-empty the cards are regenerated from the unchanged
pool; otherwise nothing happens. -/
def handleRegenerateCardsOnly (rand : Nat → Nat → Nat) (st : AppState) : RegenResult :=
  if 0 < st.items.length then
    ⟨applyGenerateCards rand st st.items st.cardCount, false⟩
  else ⟨st, false⟩

/-- Result of handleStartGeneration together with its observable effects:
whether the blocking alert was raised and whether detectSubject was
invoked. -/
structure StartResult where
  state : AppState
  alerted : Bool
  detectCalled : Bool
  deriving DecidableEq

/-- JavaScript truthiness of the selectedImage value: null and the empty
string are falsy (the guard of App.tsx line 97). -/
def imageTruthy : Option String → Bool
  | none => false
  | some s => if s = "" then false else true

/-- Embedding of handleStartGeneration (App.tsx lines 96-111).  The
parameter detect is the asynchronous AI collaborator, returning a subject
context or failing.  The transient DETECTING status is not observable in
the final state, which is CONFIRMING on success and ERROR on failure. -/
def handleStartGeneration (detect : String → Option String → Except Unit SubjectContext)
    (st : AppState) : StartResult :=
  if st.topic = "" ∧ imageTruthy st.selectedImage = false then ⟨st, true, false⟩
  else
    match detect st.topic st.selectedImage with
    | Except.ok ctx =>
        ⟨{ st with
            subjectContext := ctx
            tempSubjectName := ctx.subject
            status := GeneratorStatus.CONFIRMING }, false, true⟩
    | Except.error _ => ⟨{ st with status := GeneratorStatus.ERROR }, false, true⟩

end App

/-- Claim C6 (amended): for every pool of pairwise-distinct items that is
non-empty and holds at least rows times cols items, reshuffling calls no AI
service, keeps the pool and the other state fields, and replaces the cards
with a fresh set of valid cards drawn from that same pool: each requested
card carries a full grid of cells, every cell an item of the pool, and no
item occurs twice within a card; when the pool is empty nothing changes. -/
theorem regenerateCardsOnly_spec (rand : Nat → Nat → Nat) (st : App.AppState) :
    (st.items.Nodup → st.items ≠ [] → st.gridRows * st.gridCols ≤ st.items.length →
      (App.handleRegenerateCardsOnly rand st).aiCalled = false ∧
      (App.handleRegenerateCardsOnly rand st).state.items = st.items ∧
      (App.handleRegenerateCardsOnly rand st).state.status = st.status ∧
      (App.handleRegenerateCardsOnly rand st).state.poolSize = st.poolSize ∧
      (App.handleRegenerateCardsOnly rand st).state.cardCount = st.cardCount ∧
      ∃ cards,
        App.generateCards rand st.gridRows st.gridCols st.items st.cardCount =
          some cards ∧
        (App.handleRegenerateCardsOnly rand st).state.cards = cards ∧
        ∀ card ∈ cards, card.cells.length = st.gridRows * st.gridCols ∧
          card.cells.Nodup ∧
          ∀ cell ∈ card.cells, ∃ it ∈ st.items, cell = App.Cell.item it) ∧
    (st.items = [] → App.handleRegenerateCardsOnly rand st = ⟨st, false⟩) := by
  constructor
  · intro hnd hne hlen
    have hpos : 0 < st.items.length := List.length_pos.mpr hne
    obtain ⟨cards, hc, hp⟩ := App.genLoop_spec rand _ st.items hlen st.cardCount 1
    have hgen : App.generateCards rand st.gridRows st.gridCols st.items st.cardCount =
        some cards := hc
    unfold App.handleRegenerateCardsOnly App.applyGenerateCards
    rw [if_pos hpos, hgen]
    refine ⟨rfl, rfl, rfl, rfl, rfl, cards, rfl, rfl, ?_⟩
    intro card hcard
    exact ⟨(hp card hcard).1, (hp card hcard).2.2 hnd, (hp card hcard).2.1⟩
  · intro hempty
    unfold App.handleRegenerateCardsOnly
    rw [if_neg (by simp [hempty])]

/-- State with a one-item pool, smaller than the 3 x 3 grid, and one stale
zero-cell card already present. -/
def smallPoolState : App.AppState :=
  ⟨App.GeneratorStatus.SUCCESS, [⟨1, "", ""⟩], [⟨1, []⟩], ⟨"", false⟩, "",
    3, 3, 1, 13, 9, "", none⟩

/-- Counterexample to claim C6 as stated: with a non-empty one-item pool on
a 3 x 3 grid the reshuffle leaves the stale cards in place (the remaining
card has 0 cells, not 9), because generateCards returns early instead of
replacing the cards with a valid new set. -/
theorem regenerateCardsOnly_small_pool_cex :
    smallPoolState.items ≠ [] ∧
      (App.handleRegenerateCardsOnly (fun _ _ => 0) smallPoolState).state.cards =
        [⟨1, []⟩] ∧
      ∃ card ∈ (App.handleRegenerateCardsOnly (fun _ _ => 0) smallPoolState).state.cards,
        card.cells.length ≠ 3 * 3 := by
  refine ⟨by decide, by decide, ⟨1, []⟩, by decide, by decide⟩

/-- State with nine distinct items, matching the 3 x 3 grid. -/
def readyState : App.AppState :=
  ⟨App.GeneratorStatus.SUCCESS, pool9, [], ⟨"", false⟩, "",
    3, 3, 1, 13, 9, "", none⟩

/-- State with an empty item pool and one stale card. -/
def emptyPoolState : App.AppState :=
  ⟨App.GeneratorStatus.IDLE, [], [⟨1, []⟩], ⟨"", false⟩, "",
    3, 3, 1, 13, 9, "", none⟩

/-- Witness for the amended C6: the non-empty branch on a distinct
nine-item pool and the empty branch on an empty pool. -/
theorem regenerateCardsOnly_spec_witness :
    readyState.items.Nodup ∧ readyState.items ≠ [] ∧
      readyState.gridRows * readyState.gridCols ≤ readyState.items.length ∧
      emptyPoolState.items = [] ∧
      (App.handleRegenerateCardsOnly (fun _ _ => 0) readyState).state.items =
        readyState.items ∧
      App.handleRegenerateCardsOnly (fun _ _ => 0) emptyPoolState =
        ⟨emptyPoolState, false⟩ := by
  refine ⟨by decide, by decide, by decide, by decide, ?_, ?_⟩
  · exact (((regenerateCardsOnly_spec (fun _ _ => 0) readyState).1
      (by decide) (by decide) (by decide))).2.1
  · exact (regenerateCardsOnly_spec (fun _ _ => 0) emptyPoolState).2 (by decide)

/-- Claim C9: with an empty topic and no selected image, starting
generation raises the blocking alert, leaves every state field unchanged --
in particular the status does not transition to DETECTING or ERROR -- and
never invokes subject detection. -/
theorem startGeneration_blocked
    (detect : String → Option String → Except Unit App.SubjectContext)
    (st : App.AppState) (htopic : st.topic = "") (himg : st.selectedImage = none) :
    (App.handleStartGeneration detect st).state = st ∧
      (App.handleStartGeneration detect st).alerted = true ∧
      (App.handleStartGeneration detect st).detectCalled = false := by
  unfold App.handleStartGeneration
  rw [if_pos ⟨htopic, by rw [himg]; rfl⟩]
  exact ⟨rfl, rfl, rfl⟩

/-- Fresh state before any input, with default settings. -/
def blankState : App.AppState :=
  ⟨App.GeneratorStatus.IDLE, [], [], ⟨"", false⟩, "", 3, 3, 30, 13, 9, "", none⟩

/-- Witness for C9 on the fresh default state, with a detection oracle that
would succeed if it were called. -/
theorem startGeneration_blocked_witness :
    blankState.topic = "" ∧ blankState.selectedImage = none ∧
      ((App.handleStartGeneration (fun _ _ => Except.ok ⟨"Dieren", false⟩)
          blankState).state = blankState ∧
        (App.handleStartGeneration (fun _ _ => Except.ok ⟨"Dieren", false⟩)
          blankState).alerted = true ∧
        (App.handleStartGeneration (fun _ _ => Except.ok ⟨"Dieren", false⟩)
          blankState).detectCalled = false) :=
  ⟨rfl, rfl, startGeneration_blocked _ blankState rfl rfl⟩
